import Mathlib

/-
  Shallow embedding of the beam-spacing calculator (src/src/App.jsx).
  JavaScript numbers are modelled as real numbers; the geometry uses
  Real.tan where the source uses Math.tan.  Non-finite JavaScript values
  (NaN, Infinity, -Infinity) are modelled explicitly by the JSNum type for
  the unit formatter, whose source checks isFinite before computing.
-/

namespace BeamSpacing

noncomputable section

/-- Source line 14: `function toRadians(deg) { return (deg * Math.PI) / 180; }` -/
def toRadians (deg : ℝ) : ℝ := deg * Real.pi / 180

/-- The record returned by `computeAll` (source line 22):
`{ MH, thetaDeg, r, A_touch, A }`. -/
structure ComputeResult where
  MH : ℝ
  thetaDeg : ℝ
  r : ℝ
  A_touch : ℝ
  A : ℝ

/-- Source lines 15-23: `computeAll({ C, D, B, angleMode, s })`.
The angle mode is the raw string compared against the literal "full",
exactly as in `angleMode === 'full' ? B / 2 : B`. -/
def computeAll (C D B : ℝ) (angleMode : String) (s : ℝ) : ComputeResult :=
  let MH := max 0 (C - D)
  let thetaDeg := if angleMode = "full" then B / 2 else B
  let theta := toRadians thetaDeg
  let r := MH * Real.tan theta
  let A_touch := 2 * r
  let A := s * A_touch
  ⟨MH, thetaDeg, r, A_touch, A⟩

/-- Source line 27: `const overlap = Math.max(0, A_touch - A);` -/
def overlap (res : ComputeResult) : ℝ := max 0 (res.A_touch - res.A)

/-- Source line 28: `const overlapPct = A_touch > 0 ? (overlap / A_touch) * 100 : 0;` -/
def overlapPct (res : ComputeResult) : ℝ :=
  if 0 < res.A_touch then overlap res / res.A_touch * 100 else 0

/-- Source line 55: JavaScript `Math.round` rounds half toward positive
infinity, i.e. `Math.round(x) = Math.floor(x + 0.5)`. -/
def jsRound (x : ℝ) : ℤ := ⌊x + 1 / 2⌋

/-- The numeric components of the feet-and-inches rendering produced by
`inchesToFeetIn` (source lines 48-68) on a finite input: the sign (1 or -1,
line 50), whole feet (line 52), the whole-inch part (line 57), and the
numerator of the eighths fraction (line 61; 0 means no fraction is shown). -/
structure FeetIn where
  sign : ℤ
  feet : ℤ
  inchesWhole : ℤ
  num : ℤ

/-- Source lines 50-61, the finite-input path of `inchesToFeetIn`:
sign, absolute value, `feet = Math.floor(inches / 12)`,
`remIn = inches - feet * 12`, `eighths = Math.round(remIn * 8) / 8`,
`inchesWhole = Math.floor(remIn)`, `frac = remIn - inchesWhole`,
`num = Math.round(frac * den)` with `den = 8`. -/
def inchesToFeetInNum (inches : ℝ) : FeetIn :=
  let sign : ℤ := if inches < 0 then -1 else 1
  let x := |inches|
  let feet := ⌊x / 12⌋
  let remIn := x - feet * 12
  let eighths := (jsRound (remIn * 8) : ℝ) / 8
  let inchesWhole := ⌊eighths⌋
  let frac := eighths - (inchesWhole : ℝ)
  let num := jsRound (frac * 8)
  ⟨sign, feet, inchesWhole, num⟩

/-- A JavaScript number as seen by `isFinite`: NaN, the two infinities, or
a finite value. -/
inductive JSNum where
  | nan
  | posInf
  | negInf
  | finite (x : ℝ)

/-- Source line 49: the `isFinite` test. -/
def JSNum.isFinite : JSNum → Bool
  | .finite _ => true
  | _ => false

/-- Result of `inchesToFeetIn`: either the en-dash sentinel string "–"
returned on line 49, or a numeric feet-and-inches rendering. -/
inductive FmtResult where
  | sentinel
  | value (f : FeetIn)

/-- Source lines 48-68: `if (!isFinite(inches)) return "–";` then the
numeric path. -/
def inchesToFeetIn : JSNum → FmtResult
  | .finite x => .value (inchesToFeetInNum x)
  | _ => .sentinel

/-- Source line 71: `const svgWidth = 760;` -/
def svgWidth : ℝ := 760

/-- Source line 73: left margin 24. -/
def marginLeft : ℝ := 24

/-- Source line 73: right margin 24. -/
def marginRight : ℝ := 24

/-- Source line 81: `const totalWidthIn = Math.max(1, A + 2 * r);` -/
def totalWidthIn (res : ComputeResult) : ℝ := max 1 (res.A + 2 * res.r)

/-- Source line 82: `const drawableWidth = svgWidth - margin.left - margin.right;` -/
def drawableWidth : ℝ := svgWidth - marginLeft - marginRight

/-- Source line 83: `const xScale = drawableWidth / (totalWidthIn * 1.1);` -/
def xScale (res : ComputeResult) : ℝ := drawableWidth / (totalWidthIn res * 1.1)

/-- Source line 85: `const center = margin.left + drawableWidth / 2;` -/
def center : ℝ := marginLeft + drawableWidth / 2

/-- Source line 86: `const xLeft = center - (A / 2) * xScale;` -/
def xLeft (res : ComputeResult) : ℝ := center - res.A / 2 * xScale res

/-- Source line 87: `const xRight = center + (A / 2) * xScale;` -/
def xRight (res : ComputeResult) : ℝ := center + res.A / 2 * xScale res

/-- Source line 90: `const beamFootLeftR = (xLeft + r * xScale);` -/
def beamFootLeftR (res : ComputeResult) : ℝ := xLeft res + res.r * xScale res

/-- Source line 91: `const beamFootRightL = (xRight - r * xScale);` -/
def beamFootRightL (res : ComputeResult) : ℝ := xRight res - res.r * xScale res

/-- Source lines 239-243: the overlap dimension annotation is rendered
exactly when `overlap > 0`, spanning `beamFootLeftR` to `beamFootRightL`;
`none` models its absence from the rendered diagram. -/
def overlapDim (res : ComputeResult) : Option (ℝ × ℝ) :=
  if 0 < overlap res then some (beamFootLeftR res, beamFootRightL res) else none

/-- Claim C1: in full-angle mode with workPlaneHeight < ceilingHeight and
beamAngle in (0, 170], the touch spacing equals
2 × (ceilingHeight − workPlaneHeight) × tan(beamAngle/2 in radians),
with radius = mountingHeight × tan(half-angle) and touchSpacing = 2 × radius. -/
theorem c1_full_mode_touch_spacing (C D B s : ℝ)
    (hCD : D < C) (hB0 : 0 < B) (hB : B ≤ 170) :
    (computeAll C D B "full" s).A_touch
        = 2 * (C - D) * Real.tan (toRadians (B / 2)) ∧
    (computeAll C D B "full" s).r
        = (computeAll C D B "full" s).MH
            * Real.tan (toRadians (computeAll C D B "full" s).thetaDeg) ∧
    (computeAll C D B "full" s).A_touch = 2 * (computeAll C D B "full" s).r := by
  have hMH : max 0 (C - D) = C - D := max_eq_right (by linarith)
  refine ⟨?_, ?_, ?_⟩ <;> simp [computeAll, hMH] <;> ring

theorem c1_full_mode_touch_spacing_witness :
    ((36 : ℝ) < 108 ∧ (0 : ℝ) < 30 ∧ (30 : ℝ) ≤ 170) ∧
    ((computeAll 108 36 30 "full" 1).A_touch
        = 2 * ((108 : ℝ) - 36) * Real.tan (toRadians (30 / 2)) ∧
      (computeAll 108 36 30 "full" 1).r
        = (computeAll 108 36 30 "full" 1).MH
            * Real.tan (toRadians (computeAll 108 36 30 "full" 1).thetaDeg) ∧
      (computeAll 108 36 30 "full" 1).A_touch
        = 2 * (computeAll 108 36 30 "full" 1).r) :=
  ⟨⟨by norm_num, by norm_num, by norm_num⟩,
    c1_full_mode_touch_spacing 108 36 30 1 (by norm_num) (by norm_num) (by norm_num)⟩

/-- Claim C2: whenever workPlaneHeight ≥ ceilingHeight, every derived
quantity is zero: mountingHeight, radius, touchSpacing, chosenSpacing,
overlap, and overlapPercent. -/
theorem c2_degenerate_all_zero (C D B s : ℝ) (m : String) (h : C ≤ D) :
    (computeAll C D B m s).MH = 0 ∧
    (computeAll C D B m s).r = 0 ∧
    (computeAll C D B m s).A_touch = 0 ∧
    (computeAll C D B m s).A = 0 ∧
    overlap (computeAll C D B m s) = 0 ∧
    overlapPct (computeAll C D B m s) = 0 := by
  have hMH : max 0 (C - D) = 0 := max_eq_left (by linarith)
  simp [computeAll, overlap, overlapPct, hMH]

theorem c2_degenerate_all_zero_witness :
    ((108 : ℝ) ≤ 108) ∧
    ((computeAll 108 108 30 "full" 0.9).MH = 0 ∧
      (computeAll 108 108 30 "full" 0.9).r = 0 ∧
      (computeAll 108 108 30 "full" 0.9).A_touch = 0 ∧
      (computeAll 108 108 30 "full" 0.9).A = 0 ∧
      overlap (computeAll 108 108 30 "full" 0.9) = 0 ∧
      overlapPct (computeAll 108 108 30 "full" 0.9) = 0) :=
  ⟨le_refl 108, c2_degenerate_all_zero 108 108 30 0.9 "full" (by norm_num)⟩

/-- Claim C4: computing with beam angle 2k in full mode and with beam angle
k in half mode yields the same touchSpacing (exactly, in the real model). -/
theorem c4_half_full_equivalence (C D k : ℝ)
    (hCD : D < C) (hk0 : 0 < k) (hk : 2 * k ≤ 170) :
    (computeAll C D (2 * k) "full" 1).A_touch
      = (computeAll C D k "half" 1).A_touch := by
  simp [computeAll]

theorem c4_half_full_equivalence_witness :
    ((36 : ℝ) < 108 ∧ (0 : ℝ) < 15 ∧ 2 * (15 : ℝ) ≤ 170) ∧
    (computeAll 108 36 (2 * 15) "full" 1).A_touch
      = (computeAll 108 36 15 "half" 1).A_touch :=
  ⟨⟨by norm_num, by norm_num, by norm_num⟩,
    c4_half_full_equivalence 108 36 15 (by norm_num) (by norm_num) (by norm_num)⟩

/-- Claim C7: the unit formatter produces the sentinel placeholder exactly
on the non-finite inputs (NaN, +Infinity, −Infinity) and on no other
input. -/
theorem c7_sentinel_iff_nonfinite (j : JSNum) :
    inchesToFeetIn j = FmtResult.sentinel ↔ j.isFinite = false := by
  cases j <;> simp [inchesToFeetIn, JSNum.isFinite]

/-- Claim C10: any angle-mode string other than "full" behaves exactly like
half-angle mode: the computation uses beamAngle itself as the half-angle
and the result record is identical to the one computed with mode "half". -/
theorem c10_unrecognized_mode_is_half (C D B s : ℝ) (m : String)
    (h : m ≠ "full") :
    computeAll C D B m s = computeAll C D B "half" s ∧
    (computeAll C D B m s).thetaDeg = B := by
  have h2 : ("half" : String) ≠ "full" := by decide
  constructor
  · simp [computeAll, h, h2]
  · simp [computeAll, h]

theorem c10_unrecognized_mode_is_half_witness :
    (("beam" : String) ≠ "full") ∧
    (computeAll 108 36 30 "beam" 0.9 = computeAll 108 36 30 "half" 0.9 ∧
      (computeAll 108 36 30 "beam" 0.9).thetaDeg = 30) :=
  ⟨by decide, c10_unrecognized_mode_is_half 108 36 30 0.9 "beam" (by decide)⟩

/-- Helper: the half of a 90-degree full beam angle has tangent 1. -/
theorem tan_half_90 : Real.tan (toRadians ((90 : ℝ) / 2)) = 1 := by
  have h : toRadians ((90 : ℝ) / 2) = Real.pi / 4 := by unfold toRadians; ring
  rw [h, Real.tan_pi_div_four]

/-- Claim C3 (code evaluation at the failing input): on input 11.9375
inches the formatter computes feet = 0 and a whole-inch part of 12 with a
zero fraction — the rounded remainder 96/8 = 12 is NOT carried into feet,
so the rendered inch component is not in [0, 12) as the claim requires. -/
theorem c3_formatter_no_carry_at_failing_input :
    inchesToFeetIn (JSNum.finite 11.9375)
        = FmtResult.value ⟨1, 0, 12, 0⟩ ∧
    ¬ (inchesToFeetInNum 11.9375).inchesWhole < 12 := by
  have h1 : ⌊(11.9375 : ℝ) / 12⌋ = 0 := by
    rw [Int.floor_eq_iff] <;> norm_num
  have h2 : jsRound (((11.9375 : ℝ) - ((0 : ℤ) : ℝ) * 12) * 8) = 96 := by
    unfold jsRound
    rw [Int.floor_eq_iff] <;> norm_num
  have h3 : ⌊((96 : ℤ) : ℝ) / 8⌋ = 12 := by
    rw [Int.floor_eq_iff] <;> norm_num
  have h4 : jsRound ((((96 : ℤ) : ℝ) / 8 - ((12 : ℤ) : ℝ)) * 8) = 0 := by
    unfold jsRound
    rw [Int.floor_eq_iff] <;> norm_num
  have key : inchesToFeetInNum 11.9375 = ⟨1, 0, 12, 0⟩ := by
    unfold inchesToFeetInNum
    rw [abs_of_nonneg (by norm_num : (0 : ℝ) ≤ 11.9375)]
    dsimp only
    rw [h1, h2, h3, h4]
    norm_num
  refine ⟨?_, ?_⟩
  · show FmtResult.value (inchesToFeetInNum 11.9375) = _
    rw [key]
  · rw [key]
    norm_num

/-- Claim C5 (counterexample): with ceilingHeight = workPlaneHeight = 108,
beamAngle 30, full mode, the chosen spacing is 0 for every spacing factor,
so it is not strictly increasing over 0 < s1 < s2 (here s1 = 1, s2 = 2). -/
theorem c5_counterexample :
    (0 : ℝ) < 1 ∧ (1 : ℝ) < 2 ∧
    ¬ (computeAll 108 108 30 "full" 1).A < (computeAll 108 108 30 "full" 2).A := by
  refine ⟨by norm_num, by norm_num, ?_⟩
  simp [computeAll]

/-- Claim C5 (amended): holding ceilingHeight, workPlaneHeight, beamAngle
and angle mode fixed, chosenSpacing is strictly increasing in the spacing
factor over s > 0 provided the touch spacing is positive. -/
theorem c5_amended_strict_mono (C D B s1 s2 : ℝ) (m : String)
    (h1 : 0 < s1) (h12 : s1 < s2)
    (hT : 0 < (computeAll C D B m s1).A_touch) :
    (computeAll C D B m s1).A < (computeAll C D B m s2).A := by
  simp only [computeAll] at hT ⊢
  exact mul_lt_mul_of_pos_right h12 hT

theorem c5_amended_strict_mono_witness :
    ((0 : ℝ) < 1 ∧ (1 : ℝ) < 2 ∧ 0 < (computeAll 1 0 90 "full" 1).A_touch) ∧
    (computeAll 1 0 90 "full" 1).A < (computeAll 1 0 90 "full" 2).A := by
  have hT : 0 < (computeAll 1 0 90 "full" 1).A_touch := by
    simp [computeAll, tan_half_90]
  exact ⟨⟨by norm_num, by norm_num, hT⟩,
    c5_amended_strict_mono 1 0 90 1 2 "full" (by norm_num) (by norm_num) hT⟩

/-- Claim C6 (counterexample): with spacing factor −1 at ceilingHeight 1,
workPlaneHeight 0, beamAngle 90 in full mode, touchSpacing = 2 and
chosenSpacing = −2, so overlapPercent = 200, outside [0, 100]. -/
theorem c6_counterexample :
    overlapPct (computeAll 1 0 90 "full" (-1)) = 200 ∧
    ¬ overlapPct (computeAll 1 0 90 "full" (-1)) ≤ 100 := by
  have h : overlapPct (computeAll 1 0 90 "full" (-1)) = 200 := by
    simp [computeAll, overlap, overlapPct, tan_half_90]
    norm_num
  exact ⟨h, by rw [h]; norm_num⟩

/-- Claim C6 (amended): overlap always equals
max(0, touchSpacing − chosenSpacing) and is non-negative, and
overlapPercent — overlap/touchSpacing × 100 when touchSpacing is positive,
otherwise 0 — lies in [0, 100] provided the spacing factor is
non-negative. -/
theorem c6_amended_overlap_bounds (C D B s : ℝ) (m : String) (hs : 0 ≤ s) :
    overlap (computeAll C D B m s)
        = max 0 ((computeAll C D B m s).A_touch - (computeAll C D B m s).A) ∧
    0 ≤ overlap (computeAll C D B m s) ∧
    0 ≤ overlapPct (computeAll C D B m s) ∧
    overlapPct (computeAll C D B m s) ≤ 100 := by
  refine ⟨rfl, le_max_left 0 _, ?_, ?_⟩
  · unfold overlapPct
    split
    · have hov : 0 ≤ overlap (computeAll C D B m s) := le_max_left 0 _
      positivity
    · exact le_refl 0
  · unfold overlapPct
    split
    · rename_i hT
      have hA : (computeAll C D B m s).A
          = s * (computeAll C D B m s).A_touch := rfl
      have hov : overlap (computeAll C D B m s)
          ≤ (computeAll C D B m s).A_touch := by
        unfold overlap
        have hsT : 0 ≤ s * (computeAll C D B m s).A_touch :=
          mul_nonneg hs (le_of_lt hT)
        rw [hA]
        exact max_le (le_of_lt hT) (by linarith)
      rw [div_mul_eq_mul_div, div_le_iff₀ hT]
      nlinarith [hov, hT]
    · norm_num

theorem c6_amended_overlap_bounds_witness :
    ((0 : ℝ) ≤ 0.9) ∧
    (overlap (computeAll 108 36 30 "full" 0.9)
        = max 0 ((computeAll 108 36 30 "full" 0.9).A_touch
            - (computeAll 108 36 30 "full" 0.9).A) ∧
      0 ≤ overlap (computeAll 108 36 30 "full" 0.9) ∧
      0 ≤ overlapPct (computeAll 108 36 30 "full" 0.9) ∧
      overlapPct (computeAll 108 36 30 "full" 0.9) ≤ 100) :=
  ⟨by norm_num, c6_amended_overlap_bounds 108 36 30 0.9 "full" (by norm_num)⟩

/-- Claim C8: the two fixture x-coordinates are symmetric about the canvas
center (their midpoint is the center of the drawable area), their signed
separation is chosenSpacing × pixelsPerInch, and pixelsPerInch is
drawableWidth / (max(1, chosenSpacing + 2 × radius) × 1.1). -/
theorem c8_fixture_layout (res : ComputeResult) :
    (xLeft res + xRight res) / 2 = center ∧
    xRight res - xLeft res = res.A * xScale res ∧
    xScale res = drawableWidth / (max 1 (res.A + 2 * res.r) * 1.1) := by
  refine ⟨?_, ?_, rfl⟩
  · unfold xLeft xRight; ring
  · unfold xLeft xRight; ring

/-- Claim C9: the overlap dimension annotation is present in the diagram
iff overlap > 0, and when present it spans from the right edge of the left
beam's footprint to the left edge of the right beam's footprint. -/
theorem c9_overlap_dim_iff (res : ComputeResult) :
    ((overlapDim res).isSome ↔ 0 < overlap res) ∧
    (0 < overlap res →
      overlapDim res = some (beamFootLeftR res, beamFootRightL res)) := by
  unfold overlapDim
  constructor
  · split <;> simp_all
  · intro h
    rw [if_pos h]

theorem c9_overlap_dim_iff_witness :
    0 < overlap ⟨0, 0, 1, 4, 2⟩ ∧
    overlapDim ⟨0, 0, 1, 4, 2⟩
      = some (beamFootLeftR ⟨0, 0, 1, 4, 2⟩, beamFootRightL ⟨0, 0, 1, 4, 2⟩) :=
  ⟨by norm_num [overlap],
    (c9_overlap_dim_iff ⟨0, 0, 1, 4, 2⟩).2 (by norm_num [overlap])⟩

end

end BeamSpacing
